import Mathlib

/-!
Verification of the Medical RAG assistant (`src/app.py`) against its
natural-language specification.

The source is a Streamlit application.  Its core pipeline is embedded
shallowly below: the Gemini generation backend is modelled as a function
from api key and prompt to `Except String String` (error message or
response text), timestamps as natural numbers, and similarity scores as
rationals.  The retrieval routine `retrieve_similar_chunks` is imported by
the source from a module `medical_rag_system` that is not part of the
repository, so it is modelled from the specification (see its doc
comment); everything else is translated directly from `src/app.py`.
-/

namespace MedicalRAG

/-- Metadata attached to a corpus chunk; the source reads the key
`medical_specialty` from it (`app.py` line 53 and line 154). -/
structure ChunkMeta where
  medical_specialty : String
  deriving Repr, DecidableEq

/-- A retrieved chunk as consumed by `generate_medical_answer` and the UI:
a dictionary with keys `content`, `metadata` and `similarity_score`
(`app.py` lines 53 and 154).  Similarity scores are modelled as rationals. -/
structure Chunk where
  content : String
  metadata : ChunkMeta
  similarity_score : ℚ
  deriving Repr, DecidableEq

/-- The fixed no-context reply (`app.py` line 50). -/
def noContextMessage : String :=
  "I couldn\x27t find relevant medical information to answer this question in the available records."

/-- One labeled context block of the prompt (`app.py` line 53):
`--- MEDICAL NOTE (i+1) (Specialty: ...) ---` followed by the chunk content,
where `i` is the 0-based position of the chunk in the context list. -/
def noteBlock (i : Nat) (chunk : Chunk) : String :=
  "--- MEDICAL NOTE " ++ toString (i + 1) ++ " (Specialty: "
    ++ chunk.metadata.medical_specialty ++ ") ---\n" ++ chunk.content

/-- The joined context section (`app.py` lines 52-55):
the labeled blocks joined by blank lines. -/
def context_text (context_chunks : List Chunk) : String :=
  String.intercalate "\n\n" (context_chunks.enum.map (fun p => noteBlock p.1 p.2))

/-- The full prompt assembled by `generate_medical_answer`
(`app.py` lines 57-72), reproduced verbatim from the f-string. -/
def buildPrompt (query : String) (context_chunks : List Chunk) : String :=
  "You are a medical research assistant. Answer the question based ONLY on the provided medical context from clinical notes.\n\nMEDICAL CONTEXT:\n"
    ++ context_text context_chunks
    ++ "\n\nQUESTION: " ++ query
    ++ "\n\n"
    ++ "IMPORTANT INSTRUCTIONS:\n- Answer using ONLY the information from the medical context above\n- If the context doesn\x27t contain relevant information, say \"I cannot find specific information about this in the available medical records\"\n- Be precise and medically accurate\n- Do not make up or hallucinate information\n- Mention which medical specialty the information comes from when relevant\n- Keep answers concise but informative\n\nANSWER:"

/-- The external generation backend (the `genai` calls inside the `try`
block, `app.py` lines 75-77), modelled as a function from api key and
prompt to either the response text or the raised exception's message. -/
abbrev Backend := String → String → Except String String

/-- Embeds `generate_medical_answer` (`app.py` lines 48-80).  The first
component is the returned string; the second counts the invocations of the
external generation backend performed by the call (0 on the empty-context
guard, 1 otherwise), so that the zero-external-call guard is statable. -/
def generate_medical_answer (query : String) (context_chunks : List Chunk)
    (api_key : String) (backend : Backend) : String × Nat :=
  if context_chunks.isEmpty then
    (noContextMessage, 0)
  else
    match backend api_key (buildPrompt query context_chunks) with
    | Except.ok text => (text, 1)
    | Except.error e => ("Error generating answer: " ++ e, 1)

/-- A session-history entry (`app.py` lines 141-146): the dictionary with
keys `query`, `answer`, `chunks_used` and `timestamp`. -/
structure AnswerRecord where
  query : String
  answer : String
  chunks_used : Nat
  timestamp : Nat
  deriving Repr, DecidableEq

/-- Embeds `st.session_state.history.append` (`app.py` lines 141-146):
appending one record with the current timestamp to the session history. -/
def record (query answer : String) (chunks_used timestamp : Nat)
    (history : List AnswerRecord) : List AnswerRecord :=
  history ++ [⟨query, answer, chunks_used, timestamp⟩]

/-- Embeds the query-handling block (`app.py` lines 136-146): from the
already retrieved chunks, generate the answer and unconditionally append a
history record carrying the query, the answer string, the number of chunks
used, and the current time.  Returns the answer string and the new history. -/
def ask_pipeline (query : String) (chunks : List Chunk) (api_key : String)
    (backend : Backend) (history : List AnswerRecord) (now : Nat) :
    String × List AnswerRecord :=
  let answer := (generate_medical_answer query chunks api_key backend).1
  (answer, record query answer chunks.length now history)

/-- Embeds the recent-questions view `reversed(history[-3:])`
(`app.py` line 160), with the hard-coded window size 3 generalized to a
parameter `n` as in the spec contract `recent(n)`:
`history.drop (history.length - n)` is the Python slice `history[-n:]`
for `n ≥ 1`. -/
def recent (n : Nat) (history : List AnswerRecord) : List AnswerRecord :=
  (history.drop (history.length - n)).reverse

/-- The handle constructed by `initialize_rag_system` (`app.py` line 43).
Only its existence matters to the claims verified here. -/
structure MedicalRAGSystem where
  chunks : List Chunk
  deriving Repr, DecidableEq

/-- Embeds `initialize_rag_system` (`app.py` lines 40-46).  The import and
construction of `MedicalRAGSystem`, which may throw, is modelled as an
`Except` outcome passed in; the function returns the pair
`(rag_system, None)` on success and `(None, error message)` on failure,
and (being a total Lean function) never raises. -/
def init_rag_system (load : Except String MedicalRAGSystem) :
    Option MedicalRAGSystem × Option String :=
  match load with
  | Except.ok rag => (some rag, none)
  | Except.error e => (none, some ("Error initializing RAG system: " ++ e))

/-- Modelled from the spec: `MedicalRAGSystem.retrieve_similar_chunks` is
imported by `app.py` from the module `medical_rag_system`, which is not in
the repository source.  Spec 4.3: results are ordered by descending
`similarity_score`, ties broken by original chunk insertion order (hence a
stable sort of the scored corpus), and truncated to length `k`.
`scored_corpus` is the corpus joined with the per-query similarity scores. -/
def retrieve_similar_chunks (scored_corpus : List Chunk) (k : Nat) : List Chunk :=
  (scored_corpus.mergeSort
      (fun a b => decide (b.similarity_score ≤ a.similarity_score))).take k

/-- A sample chunk used by concrete witnesses. -/
def sampleChunk : Chunk :=
  { content := "Patient presents with seasonal allergies."
    metadata := { medical_specialty := "Allergy / Immunology" }
    similarity_score := (9 : ℚ) / 10 }

/-- A second sample chunk with a lower similarity score. -/
def sampleChunk2 : Chunk :=
  { content := "Asthma follow-up visit."
    metadata := { medical_specialty := "Pulmonology" }
    similarity_score := (1 : ℚ) / 2 }

/-- A third sample chunk with the lowest similarity score. -/
def sampleChunk3 : Chunk :=
  { content := "Routine cardiology consult."
    metadata := { medical_specialty := "Cardiology" }
    similarity_score := (1 : ℚ) / 4 }

/-- The spec-side fixed system instruction (spec 4.4): constrains the model
to answer only from the supplied context and explicitly decline when the
context is insufficient (the latter is phrased inside the final
instruction block of the source prompt). -/
def spec_system_instruction : String :=
  "You are a medical research assistant. Answer the question based ONLY on the provided medical context from clinical notes."

/-- The spec-side final instruction (spec 4.4): cite specialty when
relevant and avoid fabrication. -/
def spec_final_instruction : String :=
  "IMPORTANT INSTRUCTIONS:\n- Answer using ONLY the information from the medical context above\n- If the context doesn\x27t contain relevant information, say \"I cannot find specific information about this in the available medical records\"\n- Be precise and medically accurate\n- Do not make up or hallucinate information\n- Mention which medical specialty the information comes from when relevant\n- Keep answers concise but informative\n\nANSWER:"

/-- The spec-side context block: labeled with its 1-based position `pos`
and the chunk's `medical_specialty`, followed by the chunk content. -/
def spec_context_block (pos : Nat) (specialty content : String) : String :=
  "--- MEDICAL NOTE " ++ toString pos ++ " (Specialty: " ++ specialty ++ ") ---\n"
    ++ content

/-- The spec-side context section: one block per result in order, labeled
with consecutive 1-based positions starting at `pos`. -/
def spec_context_blocks : Nat → List Chunk → List String
  | _, [] => []
  | pos, c :: rest =>
      spec_context_block pos c.metadata.medical_specialty c.content
        :: spec_context_blocks (pos + 1) rest

/-- The 0-based enumeration used by the source produces exactly the
spec-side 1-based labeled blocks. -/
theorem enumFrom_noteBlock (context_chunks : List Chunk) (n : Nat) :
    (List.enumFrom n context_chunks).map (fun p => noteBlock p.1 p.2)
      = spec_context_blocks (n + 1) context_chunks := by
  induction context_chunks generalizing n with
  | nil => rfl
  | cons c rest ih =>
      simp only [List.enumFrom, List.map_cons, spec_context_blocks, ih]
      rfl

/-- C2: For every query and API key, if the list of retrieved context chunks
is empty, `generate_medical_answer` returns the fixed non-committal
no-context string and performs zero calls to the external generation
backend. -/
theorem no_context_guard (query api_key : String) (backend : Backend) :
    generate_medical_answer query [] api_key backend = (noContextMessage, 0) := rfl

/-- C3: For every query and every non-empty context list, the prompt built
by `generate_medical_answer` consists of the fixed system instruction, the
context section with one block per result in order, each labeled with its
1-based position and its `medical_specialty`, the literal query text, and
the final instruction to cite specialty when relevant and avoid
fabrication. -/
theorem prompt_structure (query : String) (context_chunks : List Chunk)
    (hne : context_chunks ≠ []) :
    buildPrompt query context_chunks
      = spec_system_instruction
        ++ "\n\nMEDICAL CONTEXT:\n"
        ++ String.intercalate "\n\n" (spec_context_blocks 1 context_chunks)
        ++ "\n\nQUESTION: " ++ query
        ++ "\n\n" ++ spec_final_instruction := by
  have hblocks : context_text context_chunks
      = String.intercalate "\n\n" (spec_context_blocks 1 context_chunks) := by
    unfold context_text List.enum
    rw [enumFrom_noteBlock]
  simp [buildPrompt, hblocks, spec_system_instruction, spec_final_instruction]

/-- Witness for C3 at a concrete one-chunk context. -/
theorem prompt_structure_witness :
    ([sampleChunk] ≠ ([] : List Chunk))
      ∧ buildPrompt "What treats allergies?" [sampleChunk]
        = spec_system_instruction
          ++ "\n\nMEDICAL CONTEXT:\n"
          ++ String.intercalate "\n\n" (spec_context_blocks 1 [sampleChunk])
          ++ "\n\nQUESTION: " ++ "What treats allergies?"
          ++ "\n\n" ++ spec_final_instruction :=
  ⟨by simp, prompt_structure "What treats allergies?" [sampleChunk] (by simp)⟩

/-- C5: For every query, non-empty context list, and API key, when the
single synchronous backend call succeeds, `generate_medical_answer`
returns the backend's full response text unmodified (and made exactly one
backend call). -/
theorem answer_success_unmodified (query api_key text : String)
    (context_chunks : List Chunk) (backend : Backend)
    (hne : context_chunks ≠ [])
    (hok : backend api_key (buildPrompt query context_chunks) = Except.ok text) :
    generate_medical_answer query context_chunks api_key backend = (text, 1) := by
  cases context_chunks with
  | nil => exact absurd rfl hne
  | cons c rest => simp [generate_medical_answer, hok]

/-- Witness for C5 at a concrete input. -/
theorem answer_success_unmodified_witness :
    ([sampleChunk] ≠ ([] : List Chunk))
      ∧ generate_medical_answer "q" [sampleChunk] "key"
          (fun _ _ => Except.ok "grounded answer") = ("grounded answer", 1) :=
  ⟨by simp,
    answer_success_unmodified "q" "key" "grounded answer" [sampleChunk]
      (fun _ _ => Except.ok "grounded answer") (by simp) rfl⟩

/-- C10: For every query, non-empty context list, and API key, any
exception raised by the external generation backend is caught, and
`generate_medical_answer` returns the string `Error generating answer: `
followed by the exception's message (still counting exactly one backend
call), rather than propagating the exception. -/
theorem backend_exception_caught (query api_key e : String)
    (context_chunks : List Chunk) (backend : Backend)
    (hne : context_chunks ≠ [])
    (herr : backend api_key (buildPrompt query context_chunks) = Except.error e) :
    generate_medical_answer query context_chunks api_key backend
      = ("Error generating answer: " ++ e, 1) := by
  cases context_chunks with
  | nil => exact absurd rfl hne
  | cons c rest => simp [generate_medical_answer, herr]

/-- Witness for C10 at a concrete input. -/
theorem backend_exception_caught_witness :
    ([sampleChunk] ≠ ([] : List Chunk))
      ∧ generate_medical_answer "q" [sampleChunk] "key"
          (fun _ _ => Except.error "timeout")
        = ("Error generating answer: " ++ "timeout", 1) :=
  ⟨by simp,
    backend_exception_caught "q" "key" "timeout" [sampleChunk]
      (fun _ _ => Except.error "timeout") (by simp) rfl⟩

/-- Counterexample to C1: at a concrete query, context and key, a backend
that raises produces a result literally identical to the result of a
backend that successfully answered with the same text, so the failure is
returned as ordinary answer text rather than as a distinguishable
`GenerationError` value. -/
theorem generation_error_counterexample :
    generate_medical_answer "What treats allergies?" [sampleChunk] "key"
        (fun _ _ => Except.error "timeout")
      = generate_medical_answer "What treats allergies?" [sampleChunk] "key"
        (fun _ _ => Except.ok ("Error generating answer: timeout")) := rfl

/-- C1 (amended): when the external generation call raises, the answer
operation does not fail with a distinguishable error value; it returns the
failure as answer text (the string `Error generating answer: ` followed by
the cause), indistinguishable from a backend that had answered with that
same text. -/
theorem generation_failure_as_answer_text (query api_key e : String)
    (context_chunks : List Chunk) (hne : context_chunks ≠ []) :
    generate_medical_answer query context_chunks api_key
        (fun _ _ => Except.error e)
      = generate_medical_answer query context_chunks api_key
        (fun _ _ => Except.ok ("Error generating answer: " ++ e)) := by
  cases context_chunks with
  | nil => exact absurd rfl hne
  | cons c rest => simp [generate_medical_answer]

/-- Witness for the amended C1 at a concrete input. -/
theorem generation_failure_as_answer_text_witness :
    ([sampleChunk2] ≠ ([] : List Chunk))
      ∧ generate_medical_answer "q2" [sampleChunk2] "key"
          (fun _ _ => Except.error "boom")
        = generate_medical_answer "q2" [sampleChunk2] "key"
          (fun _ _ => Except.ok ("Error generating answer: " ++ "boom")) :=
  ⟨by simp, generation_failure_as_answer_text "q2" "key" "boom" [sampleChunk2] (by simp)⟩

/-- Counterexample to C6: at a concrete query whose backend call fails,
the query-handling block still appends a record to the session history
(starting from an empty history, the new history has length 1, not 0), so
the Session Log does receive a new record for the failed query. -/
theorem failed_query_logged_counterexample :
    ((ask_pipeline "What treats allergies?" [sampleChunk] "key"
        (fun _ _ => Except.error "timeout") [] 0).2).length = 1 := rfl

/-- C6 (amended): for every query whose generation-backend call fails, the
pipeline returns the string `Error generating answer: ` followed by the
cause as the answer and unconditionally appends a new record for that
failed query to the Session Log, carrying that error string as its
answer. -/
theorem failed_query_appends_record (query api_key e : String)
    (chunks : List Chunk) (history : List AnswerRecord) (now : Nat)
    (hne : chunks ≠ []) :
    ask_pipeline query chunks api_key (fun _ _ => Except.error e) history now
      = ("Error generating answer: " ++ e,
          history
            ++ [⟨query, "Error generating answer: " ++ e, chunks.length, now⟩]) := by
  cases chunks with
  | nil => exact absurd rfl hne
  | cons c rest => simp [ask_pipeline, generate_medical_answer, record]

/-- Witness for the amended C6 at a concrete input. -/
theorem failed_query_appends_record_witness :
    ([sampleChunk] ≠ ([] : List Chunk))
      ∧ ask_pipeline "q" [sampleChunk] "key" (fun _ _ => Except.error "timeout") [] 7
        = ("Error generating answer: " ++ "timeout",
            [] ++ [⟨"q", "Error generating answer: " ++ "timeout", [sampleChunk].length, 7⟩]) :=
  ⟨by simp,
    failed_query_appends_record "q" "key" "timeout" [sampleChunk] [] 7 (by simp)⟩

/-- C7: for every history of N records and every `n`, the recent view
equals the first `min n N` records of the reversed history — i.e. the last
`min n N` recorded records in most-recent-first order — and in particular
never returns more than N records. -/
theorem recent_spec (n : Nat) (history : List AnswerRecord) :
    recent n history = history.reverse.take n
    ∧ (recent n history).length = min n history.length
    ∧ (recent n history).length ≤ history.length := by
  have h : recent n history = history.reverse.take n := by
    unfold recent
    exact List.take_reverse.symm
  refine ⟨h, ?_, ?_⟩
  · rw [h, List.length_take, List.length_reverse]
  · rw [h, List.length_take, List.length_reverse]
    exact Nat.min_le_right n history.length

/-- C8: the Session Log is append-only: appending a record leaves every
previously appended record in place unchanged (the old history is the
prefix of the new one of its own length), extends the log by exactly one
record carrying the given query, answer, chunk count and timestamp, and
the query-handling block mutates the history in no other way. -/
theorem session_log_append_only (query answer api_key : String)
    (chunks_used timestamp : Nat) (history : List AnswerRecord)
    (chunks : List Chunk) (backend : Backend) :
    (record query answer chunks_used timestamp history).take history.length = history
    ∧ (record query answer chunks_used timestamp history).length = history.length + 1
    ∧ (record query answer chunks_used timestamp history).get? history.length
        = some ⟨query, answer, chunks_used, timestamp⟩
    ∧ ((ask_pipeline query chunks api_key backend history timestamp).2).take
          history.length = history := by
  refine ⟨?_, ?_, ?_, ?_⟩
  · exact List.take_left history _
  · simp [record]
  · exact List.get?_concat_length history _
  · exact List.take_left history _

/-- C9: for every outcome of loading the RAG system, `init_rag_system`
returns exactly one of a usable handle and an error (handle with no error
on success, no handle with an error on any failure); being a total
function it never raises to its caller. -/
theorem init_exactly_one (load : Except String MedicalRAGSystem) :
    ((init_rag_system load).1.isSome ∧ (init_rag_system load).2 = none)
      ∨ ((init_rag_system load).1 = none ∧ (init_rag_system load).2.isSome) := by
  cases load with
  | ok rag => exact Or.inl ⟨rfl, rfl⟩
  | error e => exact Or.inr ⟨rfl, rfl⟩

/-- C4: for every scored corpus and every k ≥ 1, retrieval returns exactly
`min k (corpus length)` results with `similarity_score` monotonically
non-increasing across the sequence. -/
theorem retrieve_length_and_order (scored_corpus : List Chunk) (k : Nat)
    (hk : 1 ≤ k) :
    (retrieve_similar_chunks scored_corpus k).length = min k scored_corpus.length
    ∧ List.Chain' (fun a b : Chunk => b.similarity_score ≤ a.similarity_score)
        (retrieve_similar_chunks scored_corpus k) := by
  constructor
  · simp [retrieve_similar_chunks]
  · have hs := @List.sorted_mergeSort Chunk
      (fun a b : Chunk => decide (b.similarity_score ≤ a.similarity_score))
      (fun a b c hab hbc => by
        simp only [decide_eq_true_eq] at *
        exact le_trans hbc hab)
      (fun a b => by
        simp only [Bool.or_eq_true, decide_eq_true_eq]
        exact le_total b.similarity_score a.similarity_score)
      scored_corpus
    have hp : (retrieve_similar_chunks scored_corpus k).Pairwise
        (fun a b : Chunk => b.similarity_score ≤ a.similarity_score) := by
      have := (List.Pairwise.sublist (List.take_sublist k _) hs).imp
        (fun h => of_decide_eq_true h)
      exact this
    exact hp.chain'

/-- Witness for C4 at a concrete unsorted three-chunk corpus and k = 2. -/
theorem retrieve_length_and_order_witness :
    1 ≤ 2
      ∧ ((retrieve_similar_chunks [sampleChunk2, sampleChunk, sampleChunk3] 2).length
            = min 2 ([sampleChunk2, sampleChunk, sampleChunk3] : List Chunk).length
          ∧ List.Chain' (fun a b : Chunk => b.similarity_score ≤ a.similarity_score)
              (retrieve_similar_chunks [sampleChunk2, sampleChunk, sampleChunk3] 2)) :=
  ⟨by decide,
    retrieve_length_and_order [sampleChunk2, sampleChunk, sampleChunk3] 2 (by decide)⟩

end MedicalRAG
